import Mathlib

/-!
Verification of the flight-location-simulator protocol-encoding and
broadcast core: the GDL-90 binary encoder (CRC-16, field packing,
byte-stuffing, framing), the XGPS ASCII encoder, and the UDP broadcaster
state machines, embedded shallowly from the TypeScript sources.
-/

namespace FlightSim

/-! ### GDL-90 CRC (src/server/utils/gdl90Encoder.ts, calculateCRC)

The source keeps the accumulator in a JavaScript number and only masks to
16 bits on return; since no operation ever moves a high bit downward, the
low 16 bits evolve exactly as in the unmasked `Nat` fold below. -/

/-- One shift iteration of the CRC loop: if bit 15 is set, shift left and
xor the polynomial 0x1021, else just shift left. -/
def crcShift (c : Nat) : Nat :=
  if c &&& 0x8000 ≠ 0 then (c <<< 1) ^^^ 0x1021 else c <<< 1

/-- Processing of one data byte: `crc ^= data[i]` (xor into the LOW byte
of the accumulator, as the source does) followed by eight shift
iterations. -/
def crcByteStep (c b : Nat) : Nat :=
  crcShift (crcShift (crcShift (crcShift (crcShift (crcShift (crcShift (crcShift (c ^^^ b))))))))

/-- `calculateCRC` from gdl90Encoder.ts: fold the byte steps from initial
value 0 and mask the result to 16 bits. -/
def calculateCRC (data : List Nat) : Nat :=
  (data.foldl crcByteStep 0) &&& 0xffff

/-- The two big-endian CRC bytes the message builders append:
`(crc >> 8) & 0xff` then `crc & 0xff`. -/
def crcAppendBytes (p : List Nat) : List Nat :=
  [(calculateCRC p >>> 8) &&& 0xff, calculateCRC p &&& 0xff]

/-- What recomputing the CRC over `p ++ crcAppendBytes p` actually
produces, as a function of `calculateCRC p` alone. -/
def crcSelfImage (c : Nat) : Nat :=
  (crcByteStep (crcByteStep c ((c >>> 8) &&& 0xff)) (c &&& 0xff)) &&& 0xffff

lemma maskBit_of_and_eq {a b : Nat} (h : a &&& 65535 = b &&& 65535) :
    ∀ i, i < 16 → a.testBit i = b.testBit i := by
  intro i hi
  have h2 := congrArg (fun x => Nat.testBit x i) h
  simp only [Nat.testBit_and] at h2
  have h3 : (65535 : Nat).testBit i = true := by
    have h4 : (65535 : Nat) = 2 ^ 16 - 1 := by norm_num
    rw [h4, Nat.testBit_two_pow_sub_one]
    simpa using hi
  simpa [h3] using h2

lemma and_mask_eq_of_bits {a b : Nat} (h : ∀ i, i < 16 → a.testBit i = b.testBit i) :
    a &&& 65535 = b &&& 65535 := by
  apply Nat.eq_of_testBit_eq
  intro i
  by_cases hi : i < 16
  · simp [Nat.testBit_and, h i hi]
  · have h3 : (65535 : Nat).testBit i = false := by
      have h4 : (65535 : Nat) = 2 ^ 16 - 1 := by norm_num
      rw [h4, Nat.testBit_two_pow_sub_one]
      simpa using hi
    simp [Nat.testBit_and, h3]

lemma and_8000_ne_iff (a : Nat) : a &&& 0x8000 ≠ 0 ↔ a.testBit 15 = true := by
  have h : a &&& 0x8000 = (a.testBit 15).toNat * 2 ^ 15 := by
    have h2 := Nat.and_two_pow a 15
    norm_num at h2 ⊢
    exact h2
  rw [h]
  cases a.testBit 15 <;> simp

lemma shl1_bits {a b : Nat} (hbits : ∀ i, i < 16 → a.testBit i = b.testBit i)
    {i : Nat} (hi : i < 16) : (a <<< 1).testBit i = (b <<< 1).testBit i := by
  simp only [Nat.testBit_shiftLeft]
  by_cases h1 : 1 ≤ i
  · have h2 : i - 1 < 16 := by omega
    simp [ge_iff_le, h1, hbits _ h2]
  · have h0 : i = 0 := by omega
    subst h0
    simp

lemma crcShift_cong {a b : Nat} (h : a &&& 65535 = b &&& 65535) :
    crcShift a &&& 65535 = crcShift b &&& 65535 := by
  have hbits := maskBit_of_and_eq h
  have h15 : a.testBit 15 = b.testBit 15 := hbits 15 (by norm_num)
  have hcond : (a &&& 0x8000 ≠ 0) ↔ (b &&& 0x8000 ≠ 0) := by
    rw [and_8000_ne_iff, and_8000_ne_iff, h15]
  unfold crcShift
  by_cases hc : a &&& 0x8000 ≠ 0
  · rw [if_pos hc, if_pos (hcond.mp hc)]
    exact and_mask_eq_of_bits fun i hi => by
      simp [Nat.testBit_xor, shl1_bits hbits hi]
  · rw [if_neg hc, if_neg (fun hb => hc (hcond.mpr hb))]
    exact and_mask_eq_of_bits fun i hi => shl1_bits hbits hi

lemma xor_byte_cong {a b : Nat} (h : a &&& 65535 = b &&& 65535) (c : Nat) :
    (a ^^^ c) &&& 65535 = (b ^^^ c) &&& 65535 :=
  and_mask_eq_of_bits fun i hi => by
    simp [Nat.testBit_xor, maskBit_of_and_eq h i hi]

lemma crcByteStep_cong {a b : Nat} (h : a &&& 65535 = b &&& 65535) (c : Nat) :
    crcByteStep a c &&& 65535 = crcByteStep b c &&& 65535 := by
  unfold crcByteStep
  exact crcShift_cong (crcShift_cong (crcShift_cong (crcShift_cong (crcShift_cong
    (crcShift_cong (crcShift_cong (crcShift_cong (xor_byte_cong h c))))))))

lemma mask_idem (x : Nat) : (x &&& 65535) &&& 65535 = x &&& 65535 := by
  have h : (65535 : Nat) = 2 ^ 16 - 1 := by norm_num
  rw [h, Nat.and_pow_two_sub_one_eq_mod, Nat.and_pow_two_sub_one_eq_mod,
    Nat.mod_mod_of_dvd x dvd_rfl]

/-- C1 (amended): recomputing the CRC over a payload with its two
big-endian CRC bytes appended is a function of the payload's CRC alone. -/
theorem crc_recompute_eq_selfImage (p : List Nat) :
    calculateCRC (p ++ crcAppendBytes p) = crcSelfImage (calculateCRC p) := by
  unfold crcSelfImage crcAppendBytes calculateCRC
  rw [List.foldl_append]
  simp only [List.foldl_cons, List.foldl_nil]
  exact crcByteStep_cong (crcByteStep_cong (mask_idem _).symm _) _

/-- C1 (counterexample): the self-check is NOT the fixed constant 0 and is
not even constant: the code xors each byte into the LOW byte of the
accumulator, so the textbook CRC-CCITT append-and-recheck identity
fails. -/
theorem crc_selfcheck_counterexample :
    calculateCRC ([1] ++ crcAppendBytes [1]) = 0x2310 ∧
    calculateCRC ([1, 2, 3] ++ crcAppendBytes [1, 2, 3]) = 0x2cb6 ∧
    calculateCRC ([1] ++ crcAppendBytes [1]) ≠ 0 := by
  refine ⟨by decide, by decide, by decide⟩

/-! ### Byte-stuffing and framing (gdl90Encoder.ts, escapeData and the
"escape and frame" tail of every message builder) -/

def FLAG_BYTE : Nat := 0x7e
def ESCAPE_BYTE : Nat := 0x7d

/-- `escapeData`: each 0x7E or 0x7D byte becomes 0x7D followed by the byte
xor 0x20; every other byte passes through unchanged. -/
def escapeData : List Nat → List Nat
  | [] => []
  | b :: rest =>
    if b = FLAG_BYTE ∨ b = ESCAPE_BYTE then
      ESCAPE_BYTE :: (b ^^^ 0x20) :: escapeData rest
    else
      b :: escapeData rest

/-- The framing step shared by the three message builders: escape the
payload+CRC bytes and wrap them in flag bytes. -/
def frameMessage (message : List Nat) : List Nat :=
  FLAG_BYTE :: (escapeData message ++ [FLAG_BYTE])

/-- Modelled from the spec: the receiver-side reverse byte-stuffing
("decode"), which exists nowhere under src/ (the repository only
encodes): an escape byte 0x7D consumes the following byte and restores it
by xor 0x20; every other byte passes through. -/
def unescapeData : List Nat → List Nat
  | [] => []
  | [b] => if b = ESCAPE_BYTE then [] else [b]
  | b :: x :: rest =>
    if b = ESCAPE_BYTE then (x ^^^ 0x20) :: unescapeData rest
    else b :: unescapeData (x :: rest)

/-- A byte stream is well-stuffed when no 0x7E appears at all and every
0x7D is an escape prefix followed by one of the two escaped images 0x5E
or 0x5D. -/
def wellStuffed : List Nat → Bool
  | [] => true
  | [b] => b != FLAG_BYTE && b != ESCAPE_BYTE
  | b :: x :: rest =>
    if b = ESCAPE_BYTE then (x == 0x5e || x == 0x5d) && wellStuffed rest
    else b != FLAG_BYTE && b != ESCAPE_BYTE && wellStuffed (x :: rest)

lemma escapeData_eq_nil {d : List Nat} (h : escapeData d = []) : d = [] := by
  cases d with
  | nil => rfl
  | cons b rest =>
    by_cases hb : b = FLAG_BYTE ∨ b = ESCAPE_BYTE <;>
      simp [escapeData, hb] at h

lemma unescape_escape (d : List Nat) : unescapeData (escapeData d) = d := by
  induction d with
  | nil => rfl
  | cons b rest ih =>
    by_cases hb : b = FLAG_BYTE ∨ b = ESCAPE_BYTE
    · rw [show escapeData (b :: rest) = ESCAPE_BYTE :: (b ^^^ 0x20) :: escapeData rest by
        simp [escapeData, hb]]
      rw [show unescapeData (ESCAPE_BYTE :: (b ^^^ 0x20) :: escapeData rest)
          = ((b ^^^ 0x20) ^^^ 0x20) :: unescapeData (escapeData rest) by
        simp [unescapeData]]
      rw [Nat.xor_cancel_right, ih]
    · push_neg at hb
      rw [show escapeData (b :: rest) = b :: escapeData rest by
        simp [escapeData, hb.1, hb.2]]
      cases he : escapeData rest with
      | nil =>
        have h0 : rest = [] := escapeData_eq_nil he
        subst h0
        simp [unescapeData, hb.2, ESCAPE_BYTE] at *
        simpa [unescapeData] using hb.2
      | cons y ys =>
        rw [show unescapeData (b :: y :: ys) = b :: unescapeData (y :: ys) by
          simp [unescapeData, hb.2]]
        rw [← he, ih]

lemma escape_wellStuffed (d : List Nat) : wellStuffed (escapeData d) = true := by
  induction d with
  | nil => rfl
  | cons b rest ih =>
    by_cases hb : b = FLAG_BYTE ∨ b = ESCAPE_BYTE
    · rw [show escapeData (b :: rest) = ESCAPE_BYTE :: (b ^^^ 0x20) :: escapeData rest by
        simp [escapeData, hb]]
      rw [show wellStuffed (ESCAPE_BYTE :: (b ^^^ 0x20) :: escapeData rest)
          = (((b ^^^ 0x20) == 0x5e || (b ^^^ 0x20) == 0x5d) && wellStuffed (escapeData rest)) by
        simp [wellStuffed]]
      rcases hb with hb | hb <;> subst hb <;>
        simpa [FLAG_BYTE, ESCAPE_BYTE] using ih
    · push_neg at hb
      rw [show escapeData (b :: rest) = b :: escapeData rest by
        simp [escapeData, hb.1, hb.2]]
      cases he : escapeData rest with
      | nil => simp [wellStuffed, hb.1, hb.2]
      | cons y ys =>
        rw [show wellStuffed (b :: y :: ys)
            = (b != FLAG_BYTE && b != ESCAPE_BYTE && wellStuffed (y :: ys)) by
          simp [wellStuffed, hb.2]]
        rw [← he, ih]
        simp [hb.1, hb.2]

lemma flag_not_mem_escape (d : List Nat) : FLAG_BYTE ∉ escapeData d := by
  induction d with
  | nil => simp [escapeData]
  | cons b rest ih =>
    by_cases hb : b = FLAG_BYTE ∨ b = ESCAPE_BYTE
    · rw [show escapeData (b :: rest) = ESCAPE_BYTE :: (b ^^^ 0x20) :: escapeData rest by
        simp [escapeData, hb]]
      intro hmem
      rcases List.mem_cons.mp hmem with h1 | hmem2
      · exact absurd h1 (by decide)
      rcases List.mem_cons.mp hmem2 with h2 | h3
      · rcases hb with hb | hb <;> subst hb <;> exact absurd h2 (by decide)
      · exact ih h3
    · push_neg at hb
      rw [show escapeData (b :: rest) = b :: escapeData rest by
        simp [escapeData, hb.1, hb.2]]
      intro hmem
      rcases List.mem_cons.mp hmem with h1 | h2
      · exact hb.1 h1.symm
      · exact ih h2

/-- C2: byte-stuffing is invertible and framing-safe: un-escaping undoes
escaping exactly; the escaped stream is well-stuffed (no 0x7E at all,
every 0x7D an escape prefix); and stripping a framed message's leading
and trailing flag bytes then un-escaping recovers the pre-escape
payload+CRC bytes. -/
theorem escape_roundtrip_framing_safe (d : List Nat) :
    unescapeData (escapeData d) = d ∧
    wellStuffed (escapeData d) = true ∧
    FLAG_BYTE ∉ escapeData d ∧
    (frameMessage d).head? = some FLAG_BYTE ∧
    (frameMessage d).getLast? = some FLAG_BYTE ∧
    unescapeData (((frameMessage d).drop 1).dropLast) = d := by
  refine ⟨unescape_escape d, escape_wellStuffed d, flag_not_mem_escape d, rfl, ?_, ?_⟩
  · show (FLAG_BYTE :: (escapeData d ++ [FLAG_BYTE])).getLast? = some FLAG_BYTE
    rw [← List.cons_append, List.getLast?_concat]
  · have h : ((frameMessage d).drop 1).dropLast = escapeData d := by
      simp [frameMessage]
    rw [h, unescape_escape]

/-! ### Numeric field encoders (gdl90Encoder.ts)

JavaScript numbers are embedded as rationals; `Math.round` is floor of
x + 1/2 (JavaScript rounds halves toward positive infinity). All claim
inputs are exactly representable, so no double-rounding artefacts
arise. -/

/-- JavaScript `Math.round`. -/
def jsRound (q : ℚ) : ℤ := ⌊q + 1 / 2⌋

/-- The GPSPosition record from src/types/gps (all numeric fields). -/
structure GPSPosition where
  latitude : ℚ
  longitude : ℚ
  altitude : ℚ
  heading : ℚ
  groundSpeed : ℚ
  verticalSpeed : ℚ
  timestamp : ℚ
deriving DecidableEq

/-- Node's `Buffer.writeIntBE(value, 0, 3)`: throws `ERR_OUT_OF_RANGE`
unless -2^23 ≤ value ≤ 2^23 - 1, else writes the value big-endian as
24-bit two's complement. The throw is modelled as `none`. -/
def writeIntBE3 (v : ℤ) : Option (List Nat) :=
  if -(2 ^ 23) ≤ v ∧ v ≤ 2 ^ 23 - 1 then
    let u : Nat := (v % 2 ^ 24).toNat
    some [(u >>> 16) &&& 0xff, (u >>> 8) &&& 0xff, u &&& 0xff]
  else none

/-- `encodeLatitude`: degrees to semicircles (180° = 2^23), 24-bit
big-endian write. -/
def encodeLatitude (lat : ℚ) : Option (List Nat) :=
  writeIntBE3 (jsRound ((lat / 180) * 2 ^ 23))

/-- `encodeLongitude`: degrees to semicircles (180° = 2^23), 24-bit
big-endian write. -/
def encodeLongitude (lon : ℚ) : Option (List Nat) :=
  writeIntBE3 (jsRound ((lon / 180) * 2 ^ 23))

/-- `encodeAltitude`: 25-foot increments offset by -1000 ft, clamped into
[0, 0xFFE] as `Math.max(0, Math.min(0xffe, Math.round(...)))`. -/
def encodeAltitude (altitudeFeet : ℚ) : ℤ :=
  max 0 (min 0xffe (jsRound ((altitudeFeet + 1000) / 25)))

/-- `encodeVelocity`: knots rounded, clamped into [0, 0xFFE]. -/
def encodeVelocity (speedKnots : ℚ) : ℤ :=
  max 0 (min 0xffe (jsRound speedKnots))

/-- `encodeVerticalVelocity`: 64-fpm increments; negative values become
sign bit 0x800 with the magnitude in the low 11 bits. -/
def encodeVerticalVelocity (vsFpm : ℚ) : Nat :=
  let encoded := jsRound (vsFpm / 64)
  if encoded < 0 then (0x800 ||| (encoded.natAbs &&& 0x7ff)) &&& 0xfff
  else (max 0 (min 0x7ff encoded)).toNat

/-- `encodeTrackHeading`: `Math.round((heading / 1.4) * (256 / 360)) &
0xff`; the 32-bit `& 0xff` on a possibly negative rounded value equals
the value modulo 256. -/
def encodeTrackHeading (heading : ℚ) : Nat :=
  ((jsRound ((heading / (7 / 5)) * (256 / 360))) % 256).toNat

/-! ### Message builders (gdl90Encoder.ts) -/

/-- The tail shared by all three builders: append the two big-endian CRC
bytes of the payload, escape, and frame. -/
def appendCRCAndFrame (payload : List Nat) : List Nat :=
  frameMessage (payload ++ crcAppendBytes payload)

/-- Heartbeat payload: id 0x00, status byte1 0x81 (UAT initialized + GPS
position valid, unconditionally), status byte2 0x00, 17-bit seconds
since UTC midnight, message counts 0x00. The wall-clock seconds value is
passed in explicitly. -/
def heartbeatPayload (secondsSinceMidnight : Nat) : List Nat :=
  [0x00, 0x81, 0x00,
   (secondsSinceMidnight >>> 16) &&& 0x01,
   (secondsSinceMidnight >>> 8) &&& 0xff,
   secondsSinceMidnight &&& 0xff,
   0x00]

/-- `createHeartbeatMessage`, with the clock-derived seconds value as an
explicit parameter. -/
def createHeartbeatMessage (secondsSinceMidnight : Nat) : List Nat :=
  appendCRCAndFrame (heartbeatPayload secondsSinceMidnight)

/-- The fixed placeholder call sign `"N12345  "` as ASCII bytes. -/
def callSignBytes : List Nat := [78, 49, 50, 51, 52, 53, 32, 32]

/-- The 28-byte Ownship Report payload, given the already-encoded
latitude and longitude byte triples. The call sign is the last field on
the wire: the source's final emergency-code write targets index 28 of
the 28-byte Buffer, which Node's typed arrays silently drop, so no
emergency byte reaches the payload. -/
def ownshipPayload (pos : GPSPosition) (latB lonB : List Nat) : List Nat :=
  let alt := (encodeAltitude pos.altitude).toNat
  let vel := (encodeVelocity pos.groundSpeed).toNat
  let vs := encodeVerticalVelocity pos.verticalSpeed
  [0x0a, 0x00, 0x00, 0xab, 0xcd, 0xef] ++ latB ++ lonB ++
  [(alt >>> 4) &&& 0xff,
   ((alt &&& 0x0f) <<< 4) ||| 0x0b,
   0xa8,
   (vel >>> 4) &&& 0xff,
   ((vel &&& 0x0f) <<< 4) ||| ((vs >>> 8) &&& 0x0f),
   vs &&& 0xff,
   encodeTrackHeading pos.heading,
   0x01] ++ callSignBytes

/-- `createOwnshipReport`: throws (none) exactly when one of the two
24-bit semicircle writes is out of range. -/
def createOwnshipReport (pos : GPSPosition) : Option (List Nat) :=
  (encodeLatitude pos.latitude).bind fun latB =>
    (encodeLongitude pos.longitude).bind fun lonB =>
      some (appendCRCAndFrame (ownshipPayload pos latB lonB))

/-- `createGeometricAltitude`: 16-bit signed altitude in 5-foot
increments, big-endian, then two zero metric bytes. JavaScript's 32-bit
`>> 8` and `& 0xff` on the signed value are floor division and modulo. -/
def createGeometricAltitude (altitudeFeet : ℚ) : List Nat :=
  let altEncoded := jsRound (altitudeFeet / 5)
  appendCRCAndFrame
    [0x0b, ((altEncoded / 256) % 256).toNat, (altEncoded % 256).toNat, 0x00, 0x00]

/-- C3 (code bug): the spec says the encoders never fail on in-range
fields, but `createOwnshipReport` at longitude 180 (accepted by the
API's own range validation) computes semicircles round((180/180)·2^23) =
2^23, one past `writeIntBE`'s 3-byte maximum 2^23 - 1, and throws;
longitude -180 encodes fine, as does the rest of the in-range domain. -/
theorem ownship_throws_at_longitude_180 :
    createOwnshipReport
      { latitude := 0, longitude := 180, altitude := 0, heading := 0,
        groundSpeed := 0, verticalSpeed := 0, timestamp := 0 } = none ∧
    jsRound (((180 : ℚ) / 180) * 2 ^ 23) = 2 ^ 23 ∧
    (createOwnshipReport
      { latitude := 0, longitude := -180, altitude := 0, heading := 0,
        groundSpeed := 0, verticalSpeed := 0, timestamp := 0 }).isSome = true := by
  have h0 : jsRound (0 : ℚ) = 0 := by norm_num [jsRound]
  have hp : jsRound ((8388608 : ℚ)) = 8388608 := by norm_num [jsRound]
  have hn : jsRound ((-8388608 : ℚ)) = -8388608 := by norm_num [jsRound]
  refine ⟨?_, by norm_num [jsRound], ?_⟩
  · norm_num [createOwnshipReport, encodeLatitude, encodeLongitude, writeIntBE3, h0, hp]
  · norm_num [createOwnshipReport, encodeLatitude, encodeLongitude, writeIntBE3, h0, hn]

/-- `clamp` as the spec words it. -/
def clampSpec (lo hi x : ℤ) : ℤ := min hi (max lo x)

/-- C4 (counterexample): 100000 ft does NOT encode to the maximum code
0xFFE; round((100000+1000)/25) = 4040 is below the clamp ceiling 4094. -/
theorem altitude_100000_counterexample :
    encodeAltitude 100000 = 4040 ∧ encodeAltitude 100000 ≠ 0xffe := by
  constructor
  · norm_num [encodeAltitude, jsRound]
  · norm_num [encodeAltitude, jsRound]

/-- C4 (amended): the Ownship altitude code is clamp(round((feet+1000)/
25), 0, 0xFFE); -2000 ft gives the minimum code 0, 0 ft gives 40,
100000 ft gives 4040 (not the maximum), and the maximum code 0xFFE is
first reached at higher altitudes such as 102000 ft. -/
theorem altitude_encode_clamp :
    (∀ feet : ℚ, encodeAltitude feet = clampSpec 0 0xffe (jsRound ((feet + 1000) / 25))) ∧
    encodeAltitude (-2000) = 0 ∧ encodeAltitude 0 = 40 ∧
    encodeAltitude 100000 = 4040 ∧ encodeAltitude 102000 = 0xffe := by
  refine ⟨fun feet => ?_, by norm_num [encodeAltitude, jsRound],
    by norm_num [encodeAltitude, jsRound], by norm_num [encodeAltitude, jsRound],
    by norm_num [encodeAltitude, jsRound]⟩
  unfold encodeAltitude clampSpec
  omega

/-! ### XGPS encoder (xgpsEncoder.ts) -/

/-- `feetToMeters`: feet * 0.3048. -/
def feetToMeters (feet : ℚ) : ℚ := feet * (3048 / 10000)

/-- `knotsToMetersPerSecond`: knots * 0.514444. -/
def knotsToMetersPerSecond (knots : ℚ) : ℚ := knots * (514444 / 1000000)

/-- Left-pad a digit string with zeros to length f. -/
def padZeros (s : String) (f : Nat) : String :=
  String.mk (List.replicate (f - s.length) '0') ++ s

/-- Format the scaled nonnegative integer m as a decimal numeral with f
fraction digits. -/
def formatScaled (m f : Nat) : String :=
  if f = 0 then Nat.repr m
  else Nat.repr (m / 10 ^ f) ++ "." ++ padZeros (Nat.repr (m % 10 ^ f)) f

/-- JavaScript's `Number.prototype.toFixed` on exact rational values: a
negative value formats as "-" followed by the formatted absolute value;
the scaled value rounds to the nearest integer, picking the larger one
on ties. -/
def toFixed (x : ℚ) (f : Nat) : String :=
  if x < 0 then "-" ++ formatScaled (⌊(-x) * 10 ^ f + 1 / 2⌋).toNat f
  else formatScaled (⌊x * 10 ^ f + 1 / 2⌋).toNat f

/-- `createXGPSMessage`: the ASCII line
XGPS<name>,<lon:%.8f>,<lat:%.8f>,<alt_m:%.1f>,<heading:%.2f>,<speed:%.1f>
(longitude before latitude, altitude in meters, speed in m/s). -/
def createXGPSMessage (position : GPSPosition) (simulatorName : String) : String :=
  "XGPS" ++ simulatorName ++ "," ++ toFixed position.longitude 8 ++ "," ++
    toFixed position.latitude 8 ++ "," ++ toFixed (feetToMeters position.altitude) 1 ++ "," ++
    toFixed position.heading 2 ++ "," ++ toFixed (knotsToMetersPerSecond position.groundSpeed) 1

/-- UTF-8 encoding of one character. -/
def utf8EncodeChar (c : Char) : List Nat :=
  let n := c.toNat
  if n < 0x80 then [n]
  else if n < 0x800 then [0xc0 ||| (n >>> 6), 0x80 ||| (n &&& 0x3f)]
  else if n < 0x10000 then
    [0xe0 ||| (n >>> 12), 0x80 ||| ((n >>> 6) &&& 0x3f), 0x80 ||| (n &&& 0x3f)]
  else
    [0xf0 ||| (n >>> 18), 0x80 ||| ((n >>> 12) &&& 0x3f),
     0x80 ||| ((n >>> 6) &&& 0x3f), 0x80 ||| (n &&& 0x3f)]

/-- `Buffer.from(message, 'utf-8')` as a byte list. -/
def utf8Encode (s : String) : List Nat :=
  (s.data.map utf8EncodeChar).flatten

lemma toFixed_neg_eq (x : ℚ) (f m : Nat) (hx : x < 0)
    (hm : ⌊(-x) * 10 ^ f + 1 / 2⌋ = (m : ℤ)) :
    toFixed x f = "-" ++ formatScaled m f := by
  unfold toFixed
  rw [if_pos hx, hm, Int.toNat_natCast]

lemma toFixed_nonneg_eq (x : ℚ) (f m : Nat) (hx : ¬x < 0)
    (hm : ⌊x * 10 ^ f + 1 / 2⌋ = (m : ℤ)) :
    toFixed x f = formatScaled m f := by
  unfold toFixed
  rw [if_neg hx, hm, Int.toNat_natCast]

/-- The spec's XGPS scenario position {lat 39.8283, lon -98.5795, alt
5000 ft, heading 0, groundSpeed 0}. -/
def xgpsScenarioPos : GPSPosition :=
  { latitude := 39.8283, longitude := -98.5795, altitude := 5000, heading := 0,
    groundSpeed := 0, verticalSpeed := 0, timestamp := 0 }

/-- C5: the XGPS encoder output for the scenario position with name
"FlightSim" is exactly the expected ASCII line, its UTF-8 bytes are the
bytes of that line, and the message carries no trailing newline. -/
theorem xgps_message_scenario :
    createXGPSMessage xgpsScenarioPos "FlightSim"
      = "XGPSFlightSim,-98.57950000,39.82830000,1524.0,0.00,0.0" ∧
    utf8Encode (createXGPSMessage xgpsScenarioPos "FlightSim")
      = utf8Encode "XGPSFlightSim,-98.57950000,39.82830000,1524.0,0.00,0.0" ∧
    (utf8Encode (createXGPSMessage xgpsScenarioPos "FlightSim")).getLast? ≠ some 10 := by
  have hlon : toFixed ((-98.5795 : ℚ)) 8 = "-" ++ formatScaled 9857950000 8 :=
    toFixed_neg_eq _ _ _ (by norm_num) (by norm_num)
  have hlat : toFixed ((39.8283 : ℚ)) 8 = formatScaled 3982830000 8 :=
    toFixed_nonneg_eq _ _ _ (by norm_num) (by norm_num)
  have halt : toFixed (feetToMeters 5000) 1 = formatScaled 15240 1 :=
    toFixed_nonneg_eq _ _ _ (by norm_num [feetToMeters]) (by norm_num [feetToMeters])
  have hhead : toFixed ((0 : ℚ)) 2 = formatScaled 0 2 :=
    toFixed_nonneg_eq _ _ _ (by norm_num) (by norm_num)
  have hspeed : toFixed (knotsToMetersPerSecond 0) 1 = formatScaled 0 1 :=
    toFixed_nonneg_eq _ _ _ (by norm_num [knotsToMetersPerSecond])
      (by norm_num [knotsToMetersPerSecond])
  have hmsg : createXGPSMessage xgpsScenarioPos "FlightSim"
      = "XGPSFlightSim,-98.57950000,39.82830000,1524.0,0.00,0.0" := by
    rw [show createXGPSMessage xgpsScenarioPos "FlightSim"
        = "XGPS" ++ "FlightSim" ++ "," ++ toFixed ((-98.5795 : ℚ)) 8 ++ "," ++
          toFixed ((39.8283 : ℚ)) 8 ++ "," ++ toFixed (feetToMeters 5000) 1 ++ "," ++
          toFixed ((0 : ℚ)) 2 ++ "," ++ toFixed (knotsToMetersPerSecond 0) 1 from rfl]
    rw [hlon, hlat, halt, hhead, hspeed]
    decide
  refine ⟨hmsg, by rw [hmsg], by rw [hmsg]; decide⟩

/-! ### Broadcaster state machines (GPSDataServer.ts, XGPS and GDL-90
variants)

Sockets and timers are modelled by the state they leave behind: a timer
handle carries its period in milliseconds; the UDP socket is an opaque
handle. Start errors are the two throw sites of `start`. -/

/-- A periodic timer handle and its period in milliseconds. -/
structure Timer where
  period : ℚ
deriving DecidableEq

/-- The two throw sites of `start`. -/
inductive StartError where
  | alreadyRunning
  | invalidConfiguration
deriving DecidableEq

namespace Xgps

/-- The XGPS-variant GPSServerConfig. -/
structure GPSServerConfig where
  port : Nat
  targetIP : String
  updateRate : ℚ
  simulatorName : String
deriving DecidableEq

/-- A Partial<GPSServerConfig> patch. -/
structure PartialConfig where
  port : Option Nat := none
  targetIP : Option String := none
  updateRate : Option ℚ := none
  simulatorName : Option String := none
deriving DecidableEq

/-- The XGPS-variant GPSDataServer's private state. -/
structure ServerState where
  socket : Option Unit
  config : GPSServerConfig
  isRunning : Bool
  currentPosition : Option GPSPosition
  positionInterval : Option Timer
deriving DecidableEq

/-- The XGPS-variant constructor: defaults port 49002, empty targetIP,
1 Hz, name "FlightSim", and pre-sets the fallback position (center of
the US) so a device sees data immediately; `now` stands for
`Date.now()`. -/
def mkServer (c : PartialConfig) (now : ℚ) : ServerState :=
  { socket := none
    config := { port := c.port.getD 49002, targetIP := c.targetIP.getD "",
                updateRate := c.updateRate.getD 1,
                simulatorName := c.simulatorName.getD "FlightSim" }
    isRunning := false
    currentPosition := some
      { latitude := 39.8283, longitude := -98.5795, altitude := 5000,
        heading := 0, groundSpeed := 0, verticalSpeed := 0, timestamp := now }
    positionInterval := none }

/-- `startPositionBroadcast`: arm the position timer with period
1000/updateRate milliseconds. -/
def startPositionBroadcast (st : ServerState) : ServerState :=
  { st with positionInterval := some ⟨1000 / st.config.updateRate⟩ }

/-- `start`: throws if already running, then if targetIP is empty (the
error leaves the state untouched: no socket, no timer); otherwise opens
the socket, sets the running flag and arms the position timer. -/
def start (st : ServerState) : Except StartError ServerState :=
  if st.isRunning then .error .alreadyRunning
  else if st.config.targetIP = "" then .error .invalidConfiguration
  else .ok (startPositionBroadcast { st with socket := some (), isRunning := true })

/-- `stop`: no-op unless running; otherwise clears the position timer,
closes the socket and clears the running flag. -/
def stop (st : ServerState) : ServerState :=
  if st.isRunning then
    { st with positionInterval := none, socket := none, isRunning := false }
  else st

/-- `updatePosition`: replace the snapshot; the running timer picks it up. -/
def updatePosition (p : GPSPosition) (st : ServerState) : ServerState :=
  { st with currentPosition := some p }

/-- `{ ...this.config, ...config }`. -/
def mergeConfig (cfg : GPSServerConfig) (patch : PartialConfig) : GPSServerConfig :=
  { port := patch.port.getD cfg.port, targetIP := patch.targetIP.getD cfg.targetIP,
    updateRate := patch.updateRate.getD cfg.updateRate,
    simulatorName := patch.simulatorName.getD cfg.simulatorName }

/-- `updateConfig`: merge the patch; if the rate changed while running
with an armed position timer, clear and re-arm it at the new rate. -/
def updateConfig (patch : PartialConfig) (st : ServerState) : ServerState :=
  let newConfig := mergeConfig st.config patch
  if st.isRunning = true ∧ st.positionInterval.isSome = true ∧
      st.config.updateRate ≠ newConfig.updateRate then
    startPositionBroadcast { st with config := newConfig }
  else { st with config := newConfig }

end Xgps

namespace Gdl90

/-- The GDL-90-variant GPSServerConfig (no simulator name). -/
structure GPSServerConfig where
  port : Nat
  targetIP : String
  updateRate : ℚ
deriving DecidableEq

/-- A Partial<GPSServerConfig> patch. -/
structure PartialConfig where
  port : Option Nat := none
  targetIP : Option String := none
  updateRate : Option ℚ := none
deriving DecidableEq

/-- The GDL-90-variant GPSDataServer's private state: an extra fixed-rate
heartbeat timer, and NO default position in the constructor. -/
structure ServerState where
  socket : Option Unit
  config : GPSServerConfig
  isRunning : Bool
  currentPosition : Option GPSPosition
  heartbeatInterval : Option Timer
  positionInterval : Option Timer
deriving DecidableEq

/-- The GDL-90-variant constructor: defaults port 4000, empty targetIP,
1 Hz; the current position stays null. -/
def mkServer (c : PartialConfig) : ServerState :=
  { socket := none
    config := { port := c.port.getD 4000, targetIP := c.targetIP.getD "",
                updateRate := c.updateRate.getD 1 }
    isRunning := false
    currentPosition := none
    heartbeatInterval := none
    positionInterval := none }

/-- `startPositionBroadcast`: arm the position timer with period
1000/updateRate milliseconds. -/
def startPositionBroadcast (st : ServerState) : ServerState :=
  { st with positionInterval := some ⟨1000 / st.config.updateRate⟩ }

/-- `startHeartbeat`: arm the fixed 1-second heartbeat timer. -/
def startHeartbeat (st : ServerState) : ServerState :=
  { st with heartbeatInterval := some ⟨1000⟩ }

/-- `start`: throws if already running, then if targetIP is empty;
otherwise opens the socket, sets the running flag and starts the
heartbeat (the position timer waits for the first position). -/
def start (st : ServerState) : Except StartError ServerState :=
  if st.isRunning then .error .alreadyRunning
  else if st.config.targetIP = "" then .error .invalidConfiguration
  else .ok (startHeartbeat { st with socket := some (), isRunning := true })

/-- `stop`: no-op unless running; otherwise clears both timers, closes
the socket and clears the running flag. -/
def stop (st : ServerState) : ServerState :=
  if st.isRunning then
    { st with
      heartbeatInterval := none
      positionInterval := none
      socket := none
      isRunning := false }
  else st

/-- `updatePosition`: replace the snapshot; if running without an armed
position timer yet, arm it. -/
def updatePosition (p : GPSPosition) (st : ServerState) : ServerState :=
  if st.isRunning = true ∧ st.positionInterval = none then
    startPositionBroadcast { st with currentPosition := some p }
  else { st with currentPosition := some p }

/-- `{ ...this.config, ...config }`. -/
def mergeConfig (cfg : GPSServerConfig) (patch : PartialConfig) : GPSServerConfig :=
  { port := patch.port.getD cfg.port, targetIP := patch.targetIP.getD cfg.targetIP,
    updateRate := patch.updateRate.getD cfg.updateRate }

/-- `updateConfig`: merge the patch; if the rate changed while running
with an armed position timer, clear and re-arm it at the new rate; the
heartbeat timer is never touched. -/
def updateConfig (patch : PartialConfig) (st : ServerState) : ServerState :=
  let newConfig := mergeConfig st.config patch
  if st.isRunning = true ∧ st.positionInterval.isSome = true ∧
      st.config.updateRate ≠ newConfig.updateRate then
    startPositionBroadcast { st with config := newConfig }
  else { st with config := newConfig }

end Gdl90

/-- C6: `start` fails exactly when the broadcaster is already running
(AlreadyRunning, checked first) or the destination address is empty
(InvalidConfiguration); the throw happens before any socket or timer is
created, so a failed start leaves the state untouched; from Stopped with
a non-empty destination, start succeeds and the result is Running. Both
variants behave alike. -/
theorem start_lifecycle (sx : Xgps.ServerState) (sg : Gdl90.ServerState) :
    (sx.isRunning = true → Xgps.start sx = .error .alreadyRunning) ∧
    (sx.isRunning = false → sx.config.targetIP = "" →
      Xgps.start sx = .error .invalidConfiguration) ∧
    (sx.isRunning = false → sx.config.targetIP ≠ "" →
      ∃ st', Xgps.start sx = .ok st' ∧ st'.isRunning = true) ∧
    (sg.isRunning = true → Gdl90.start sg = .error .alreadyRunning) ∧
    (sg.isRunning = false → sg.config.targetIP = "" →
      Gdl90.start sg = .error .invalidConfiguration) ∧
    (sg.isRunning = false → sg.config.targetIP ≠ "" →
      ∃ st', Gdl90.start sg = .ok st' ∧ st'.isRunning = true) := by
  refine ⟨fun h => ?_, fun h h2 => ?_, fun h h2 => ?_,
    fun h => ?_, fun h h2 => ?_, fun h h2 => ?_⟩
  · simp [Xgps.start, h]
  · simp [Xgps.start, h, h2]
  · exact ⟨Xgps.startPositionBroadcast { sx with socket := some (), isRunning := true },
      by simp [Xgps.start, h, h2], rfl⟩
  · simp [Gdl90.start, h]
  · simp [Gdl90.start, h, h2]
  · exact ⟨Gdl90.startHeartbeat { sg with socket := some (), isRunning := true },
      by simp [Gdl90.start, h, h2], rfl⟩

/-- C6 witness: a freshly constructed broadcaster (empty destination)
cannot start; with a destination set, start succeeds into Running. -/
theorem start_lifecycle_witness :
    Xgps.start (Xgps.mkServer {} 0) = .error .invalidConfiguration ∧
    (∃ st', Xgps.start (Xgps.mkServer { targetIP := some "10.0.0.2" } 0) = .ok st' ∧
      st'.isRunning = true) ∧
    Gdl90.start (Gdl90.mkServer {}) = .error .invalidConfiguration := by
  refine ⟨(start_lifecycle (Xgps.mkServer {} 0) (Gdl90.mkServer {})).2.1 rfl rfl,
    (start_lifecycle (Xgps.mkServer { targetIP := some "10.0.0.2" } 0)
      (Gdl90.mkServer {})).2.2.1 rfl (by decide),
    (start_lifecycle (Xgps.mkServer {} 0) (Gdl90.mkServer {})).2.2.2.2.1 rfl rfl⟩

/-- C7 (counterexample): the GDL-90-variant broadcaster has NO current
position immediately after construction: its constructor never installs
the fallback point, so the position is null until the first
updatePosition. -/
theorem gdl90_initial_position_none : (Gdl90.mkServer {}).currentPosition = none := rfl

/-- C7 (amended): only the XGPS-variant constructor pre-sets the safe
fallback point (lat 39.8283, lon -98.5795, 5000 ft); the GDL-90-variant
position stays null until the first updatePosition, which sets it. -/
theorem initial_position_defaults (c : Xgps.PartialConfig) (c' : Gdl90.PartialConfig)
    (now : ℚ) (p : GPSPosition) (st : Gdl90.ServerState) :
    (Xgps.mkServer c now).currentPosition = some
      { latitude := 39.8283, longitude := -98.5795, altitude := 5000, heading := 0,
        groundSpeed := 0, verticalSpeed := 0, timestamp := now } ∧
    (Gdl90.mkServer c').currentPosition = none ∧
    (Gdl90.updatePosition p st).currentPosition = some p := by
  refine ⟨rfl, rfl, ?_⟩
  unfold Gdl90.updatePosition Gdl90.startPositionBroadcast
  split <;> rfl

/-- C8: `updateConfig` merges exactly the patch fields into the stored
config; position, running flag, socket and the heartbeat timer handle
are untouched in all cases; the position timer is torn down and re-armed
with period 1000/newRate milliseconds exactly when the rate changed
while running with an armed position timer. -/
theorem updateConfig_effects (st : Gdl90.ServerState) (patch : Gdl90.PartialConfig) :
    (Gdl90.updateConfig patch st).config.port = patch.port.getD st.config.port ∧
    (Gdl90.updateConfig patch st).config.targetIP = patch.targetIP.getD st.config.targetIP ∧
    (Gdl90.updateConfig patch st).config.updateRate
      = patch.updateRate.getD st.config.updateRate ∧
    (Gdl90.updateConfig patch st).currentPosition = st.currentPosition ∧
    (Gdl90.updateConfig patch st).isRunning = st.isRunning ∧
    (Gdl90.updateConfig patch st).socket = st.socket ∧
    (Gdl90.updateConfig patch st).heartbeatInterval = st.heartbeatInterval ∧
    (st.isRunning = true ∧ st.positionInterval.isSome = true ∧
        st.config.updateRate ≠ patch.updateRate.getD st.config.updateRate →
      (Gdl90.updateConfig patch st).positionInterval
        = some ⟨1000 / patch.updateRate.getD st.config.updateRate⟩) ∧
    (¬(st.isRunning = true ∧ st.positionInterval.isSome = true ∧
        st.config.updateRate ≠ patch.updateRate.getD st.config.updateRate) →
      (Gdl90.updateConfig patch st).positionInterval = st.positionInterval) := by
  by_cases hc : st.isRunning = true ∧ st.positionInterval.isSome = true ∧
      st.config.updateRate ≠ patch.updateRate.getD st.config.updateRate
  · simp [Gdl90.updateConfig, Gdl90.mergeConfig, Gdl90.startPositionBroadcast, hc]
  · simp [Gdl90.updateConfig, Gdl90.mergeConfig, Gdl90.startPositionBroadcast, hc]

/-- A sample running GDL-90 broadcaster used by the witnesses. -/
def sampleRunningG : Gdl90.ServerState :=
  { socket := some ()
    config := { port := 4000, targetIP := "10.0.0.9", updateRate := 1 }
    isRunning := true
    currentPosition := none
    heartbeatInterval := some ⟨1000⟩
    positionInterval := some ⟨1000⟩ }

/-- C8 witness: raising the rate from 1 Hz to 5 Hz while running re-arms
the position timer at 200 ms and leaves the 1-second heartbeat timer
alone. -/
theorem updateConfig_effects_witness :
    (Gdl90.updateConfig { updateRate := some 5 } sampleRunningG).positionInterval
      = some ⟨200⟩ ∧
    (Gdl90.updateConfig { updateRate := some 5 } sampleRunningG).heartbeatInterval
      = some ⟨1000⟩ := by
  have h := updateConfig_effects sampleRunningG { updateRate := some 5 }
  refine ⟨?_, h.2.2.2.2.2.2.1⟩
  have h8 := h.2.2.2.2.2.2.2.1 ⟨rfl, rfl, by norm_num [sampleRunningG]⟩
  rw [h8]
  norm_num [sampleRunningG, Timer.mk.injEq]

/-- C9: `stop` from Stopped is an identity on the whole state; from
Running it cancels every timer handle, releases the socket, keeps config
and position, and transitions to Stopped; stopping twice equals stopping
once. Both variants behave alike. -/
theorem stop_effects (sx : Xgps.ServerState) (sg : Gdl90.ServerState) :
    (sx.isRunning = false → Xgps.stop sx = sx) ∧
    (sx.isRunning = true →
      (Xgps.stop sx).isRunning = false ∧ (Xgps.stop sx).positionInterval = none ∧
      (Xgps.stop sx).socket = none ∧ (Xgps.stop sx).config = sx.config ∧
      (Xgps.stop sx).currentPosition = sx.currentPosition) ∧
    Xgps.stop (Xgps.stop sx) = Xgps.stop sx ∧
    (sg.isRunning = false → Gdl90.stop sg = sg) ∧
    (sg.isRunning = true →
      (Gdl90.stop sg).isRunning = false ∧ (Gdl90.stop sg).positionInterval = none ∧
      (Gdl90.stop sg).heartbeatInterval = none ∧ (Gdl90.stop sg).socket = none ∧
      (Gdl90.stop sg).config = sg.config ∧
      (Gdl90.stop sg).currentPosition = sg.currentPosition) ∧
    Gdl90.stop (Gdl90.stop sg) = Gdl90.stop sg := by
  cases hx : sx.isRunning <;> cases hg : sg.isRunning <;>
    simp [Xgps.stop, Gdl90.stop, hx, hg]

/-- C9 witness: stopping the sample running broadcaster clears both
timers and the socket; a second stop changes nothing more. -/
theorem stop_effects_witness :
    (Gdl90.stop sampleRunningG).isRunning = false ∧
    (Gdl90.stop sampleRunningG).heartbeatInterval = none ∧
    Gdl90.stop (Gdl90.stop sampleRunningG) = Gdl90.stop sampleRunningG := by
  have h := stop_effects (Xgps.mkServer {} 0) sampleRunningG
  have h5 := h.2.2.2.2.1 rfl
  exact ⟨h5.1, h5.2.2.1, h.2.2.2.2.2⟩

/-- C10: every heartbeat carries status byte1 = 0x81 (UAT initialized +
GPS position valid) unconditionally — the payload builder takes no
position argument — and the byte survives escaping, sitting at index 2
of the framed message; moreover a GDL-90 broadcaster started before any
position was ever set still arms the 1-second heartbeat timer while its
position is still null. -/
theorem heartbeat_always_position_valid (s : Nat) (st : Gdl90.ServerState)
    (h1 : st.isRunning = false) (h2 : st.config.targetIP ≠ "")
    (h3 : st.currentPosition = none) :
    (heartbeatPayload s)[1]? = some 0x81 ∧
    (createHeartbeatMessage s)[2]? = some 0x81 ∧
    ∃ st', Gdl90.start st = .ok st' ∧ st'.heartbeatInterval = some ⟨1000⟩ ∧
      st'.currentPosition = none ∧ st'.positionInterval = st.positionInterval := by
  refine ⟨rfl, ?_, ?_⟩
  · show (frameMessage (heartbeatPayload s ++ crcAppendBytes (heartbeatPayload s)))[2]?
      = some 0x81
    simp [frameMessage, heartbeatPayload, escapeData, FLAG_BYTE, ESCAPE_BYTE]
  · exact ⟨Gdl90.startHeartbeat { st with socket := some (), isRunning := true },
      by simp [Gdl90.start, h1, h2], rfl, h3, rfl⟩

/-- C10 witness: at zero seconds past midnight and from a freshly
constructed GDL-90 broadcaster with a destination set, the heartbeat
status byte is 0x81 and start arms the heartbeat timer with the position
still null. -/
theorem heartbeat_always_position_valid_witness :
    (heartbeatPayload 0)[1]? = some 0x81 ∧
    ∃ st', Gdl90.start (Gdl90.mkServer { targetIP := some "10.0.0.7" }) = .ok st' ∧
      st'.heartbeatInterval = some ⟨1000⟩ ∧ st'.currentPosition = none ∧
      st'.positionInterval = (Gdl90.mkServer { targetIP := some "10.0.0.7" }).positionInterval := by
  have h := heartbeat_always_position_valid 0 (Gdl90.mkServer { targetIP := some "10.0.0.7" })
    rfl (by decide) rfl
  exact ⟨h.1, h.2.2⟩

end FlightSim
